import Mathlib

/-!
Verification of the display-adapter translation library (`src/lib.rs`).

The library enumerates Windows display adapters and monitors, decodes the
fixed-size native records (`DISPLAY_DEVICEW`, `DEVMODEW`) into typed values,
and supports an orientation-change request. We shallowly embed the data model
and per-function logic: OS calls become explicit oracle functions, machine
integers become `Nat`/`Int`, Rust panics (`unwrap`, explicit `panic!` arms)
become `Option.none`, and UTF-16 text decoding is modelled at the level of
code-unit lists producing Unicode-scalar-value lists.
-/

namespace Monman

/-! ## OS constants (values from the Windows SDK headers, via the `winapi` crate) -/

def DISPLAY_DEVICE_ACTIVE : Nat := 0x1
def DISPLAY_DEVICE_PRIMARY_DEVICE : Nat := 0x4
def DISPLAY_DEVICE_MIRRORING_DRIVER : Nat := 0x8
def DISPLAY_DEVICE_VGA_COMPATIBLE : Nat := 0x10
def DISPLAY_DEVICE_REMOVABLE : Nat := 0x20
def DISPLAY_DEVICE_MODESPRUNED : Nat := 0x8000000

def DM_ORIENTATION : Nat := 0x1
def DM_PAPERSIZE : Nat := 0x2
def DM_PAPERLENGTH : Nat := 0x4
def DM_PAPERWIDTH : Nat := 0x8
def DM_SCALE : Nat := 0x10
def DM_POSITION : Nat := 0x20
def DM_NUP : Nat := 0x40
def DM_DISPLAYORIENTATION : Nat := 0x80
def DM_COPIES : Nat := 0x100
def DM_DEFAULTSOURCE : Nat := 0x200
def DM_PRINTQUALITY : Nat := 0x400
def DM_COLOR : Nat := 0x800
def DM_DUPLEX : Nat := 0x1000
def DM_YRESOLUTION : Nat := 0x2000
def DM_TTOPTION : Nat := 0x4000
def DM_COLLATE : Nat := 0x8000
def DM_FORMNAME : Nat := 0x10000
def DM_LOGPIXELS : Nat := 0x20000
def DM_BITSPERPEL : Nat := 0x40000
def DM_PELSWIDTH : Nat := 0x80000
def DM_PELSHEIGHT : Nat := 0x100000
def DM_DISPLAYFLAGS : Nat := 0x200000
def DM_DISPLAYFREQUENCY : Nat := 0x400000
def DM_ICMMETHOD : Nat := 0x800000
def DM_ICMINTENT : Nat := 0x1000000
def DM_MEDIATYPE : Nat := 0x2000000
def DM_DITHERTYPE : Nat := 0x4000000
def DM_PANNINGWIDTH : Nat := 0x8000000
def DM_PANNINGHEIGHT : Nat := 0x10000000
def DM_DISPLAYFIXEDOUTPUT : Nat := 0x20000000

def DM_INTERLACED : Nat := 0x2

def DMDO_DEFAULT : Nat := 0
def DMDO_90 : Nat := 1
def DMDO_180 : Nat := 2
def DMDO_270 : Nat := 3

def DISP_CHANGE_SUCCESSFUL : Int := 0
def DISP_CHANGE_RESTART : Int := 1
def DISP_CHANGE_FAILED : Int := -1
def DISP_CHANGE_BADMODE : Int := -2
def DISP_CHANGE_NOTUPDATED : Int := -3
def DISP_CHANGE_BADFLAGS : Int := -4
def DISP_CHANGE_BADPARAM : Int := -5
def DISP_CHANGE_BADDUALVIEW : Int := -6

/-! ## UTF-16 decoding

`String::from_utf16` decodes a `&[u16]` into a string of Unicode scalar
values, failing on any unpaired surrogate. We model code units and scalar
values as `Nat`. -/

/-- Model of `String::from_utf16`: decodes a list of UTF-16 code units into
the list of Unicode scalar values, `none` on an unpaired surrogate
(the Rust code `unwrap`s this, i.e. panics). -/
def utf16Decode : List Nat → Option (List Nat)
  | [] => some []
  | u :: rest =>
    if u < 0xD800 ∨ 0xDFFF < u then
      (utf16Decode rest).map (fun t => u :: t)
    else if u ≤ 0xDBFF then
      match rest with
      | [] => none
      | l :: rest2 =>
        if 0xDC00 ≤ l ∧ l ≤ 0xDFFF then
          (utf16Decode rest2).map (fun t => (0x10000 + (u - 0xD800) * 0x400 + (l - 0xDC00)) :: t)
        else none
    else none

/-- `string_from_utf16_and_strip_null` (src/lib.rs:476-480): decode the whole
buffer with `String::from_utf16` and then `retain` every character that is
not `'\u{0}'`. The bodies of `DisplayAdapter::nth` and `Monitors::new`
inline the very same decode-then-retain sequence for each text field. -/
def string_from_utf16_and_strip_null (v : List Nat) : Option (List Nat) :=
  (utf16Decode v).map (List.filter (fun c => c ≠ 0))

/-! ## Bit-flag types

`bitflags::bitflags!` generates a newtype over the raw integer; `from_bits`
returns `None` exactly when a bit outside the declared constants is set, and
`contains` tests that every bit of the argument is set. -/

/-- `DisplayState` (src/lib.rs:243-252): bit-set of adapter state flags. -/
structure DisplayState where
  bits : Nat
deriving DecidableEq

namespace DisplayState

def ACTIVE : DisplayState := ⟨DISPLAY_DEVICE_ACTIVE⟩
def MIRRORING_DRIVE : DisplayState := ⟨DISPLAY_DEVICE_MIRRORING_DRIVER⟩
def MODESPRUNED : DisplayState := ⟨DISPLAY_DEVICE_MODESPRUNED⟩
def PRIMARY_DEVICE : DisplayState := ⟨DISPLAY_DEVICE_PRIMARY_DEVICE⟩
def REMOVABLE : DisplayState := ⟨DISPLAY_DEVICE_REMOVABLE⟩
def VGA_COMPATIBLE : DisplayState := ⟨DISPLAY_DEVICE_VGA_COMPATIBLE⟩

/-- The union of all six declared flags (`DisplayState::all()`). -/
def all_bits : Nat :=
  DISPLAY_DEVICE_ACTIVE ||| DISPLAY_DEVICE_MIRRORING_DRIVER |||
  DISPLAY_DEVICE_MODESPRUNED ||| DISPLAY_DEVICE_PRIMARY_DEVICE |||
  DISPLAY_DEVICE_REMOVABLE ||| DISPLAY_DEVICE_VGA_COMPATIBLE

/-- `DisplayState::from_bits`: `None` iff any undeclared bit is set. -/
def from_bits (b : Nat) : Option DisplayState :=
  if b &&& all_bits = b then some ⟨b⟩ else none

def contains (s o : DisplayState) : Bool :=
  s.bits &&& o.bits == o.bits

/-- `DisplayState::active` (src/lib.rs:255-257). -/
def active (s : DisplayState) : Bool := s.contains ACTIVE

/-- `DisplayState::primary_device` (src/lib.rs:259-261). -/
def primary_device (s : DisplayState) : Bool := s.contains PRIMARY_DEVICE

end DisplayState

/-- `DmFields` (src/lib.rs:361-394): the `DEVMODEW` field-presence mask. -/
structure DmFields where
  bits : Nat
deriving DecidableEq

namespace DmFields

def ORIENTATION : DmFields := ⟨DM_ORIENTATION⟩
def PAPERSIZE : DmFields := ⟨DM_PAPERSIZE⟩
def PAPERLENGTH : DmFields := ⟨DM_PAPERLENGTH⟩
def PAPERWIDTH : DmFields := ⟨DM_PAPERWIDTH⟩
def SCALE : DmFields := ⟨DM_SCALE⟩
def COPIES : DmFields := ⟨DM_COPIES⟩
def DEFAULTSOURCE : DmFields := ⟨DM_DEFAULTSOURCE⟩
def PRINTQUALITY : DmFields := ⟨DM_PRINTQUALITY⟩
def POSITION : DmFields := ⟨DM_POSITION⟩
def DISPLAYORIENTATION : DmFields := ⟨DM_DISPLAYORIENTATION⟩
def DISPLAYFIXEDOUTPUT : DmFields := ⟨DM_DISPLAYFIXEDOUTPUT⟩
def COLOR : DmFields := ⟨DM_COLOR⟩
def DUPLEX : DmFields := ⟨DM_DUPLEX⟩
def YRESOLUTION : DmFields := ⟨DM_YRESOLUTION⟩
def TTOPTION : DmFields := ⟨DM_TTOPTION⟩
def COLLATE : DmFields := ⟨DM_COLLATE⟩
def FORMNAME : DmFields := ⟨DM_FORMNAME⟩
def LOGPIXELS : DmFields := ⟨DM_LOGPIXELS⟩
def BITSPERPEL : DmFields := ⟨DM_BITSPERPEL⟩
def PELSWIDTH : DmFields := ⟨DM_PELSWIDTH⟩
def PELSHEIGHT : DmFields := ⟨DM_PELSHEIGHT⟩
def DISPLAYFLAGS : DmFields := ⟨DM_DISPLAYFLAGS⟩
def NUP : DmFields := ⟨DM_NUP⟩
def DISPLAYFREQUENCY : DmFields := ⟨DM_DISPLAYFREQUENCY⟩
def ICMMETHOD : DmFields := ⟨DM_ICMMETHOD⟩
def ICMINTENT : DmFields := ⟨DM_ICMINTENT⟩
def MEDIATYPE : DmFields := ⟨DM_MEDIATYPE⟩
def DITHERTYPE : DmFields := ⟨DM_DITHERTYPE⟩
def PANNINGWIDTH : DmFields := ⟨DM_PANNINGWIDTH⟩
def PANNINGHEIGHT : DmFields := ⟨DM_PANNINGHEIGHT⟩

/-- The union of all thirty declared field constants (`DmFields::all()`),
i.e. bits 0 through 29. -/
def all_bits : Nat :=
  DM_ORIENTATION ||| DM_PAPERSIZE ||| DM_PAPERLENGTH ||| DM_PAPERWIDTH |||
  DM_SCALE ||| DM_COPIES ||| DM_DEFAULTSOURCE ||| DM_PRINTQUALITY |||
  DM_POSITION ||| DM_DISPLAYORIENTATION ||| DM_DISPLAYFIXEDOUTPUT |||
  DM_COLOR ||| DM_DUPLEX ||| DM_YRESOLUTION ||| DM_TTOPTION ||| DM_COLLATE |||
  DM_FORMNAME ||| DM_LOGPIXELS ||| DM_BITSPERPEL ||| DM_PELSWIDTH |||
  DM_PELSHEIGHT ||| DM_DISPLAYFLAGS ||| DM_NUP ||| DM_DISPLAYFREQUENCY |||
  DM_ICMMETHOD ||| DM_ICMINTENT ||| DM_MEDIATYPE ||| DM_DITHERTYPE |||
  DM_PANNINGWIDTH ||| DM_PANNINGHEIGHT

/-- `DmFields::from_bits`: `None` iff any undeclared bit is set. -/
def from_bits (b : Nat) : Option DmFields :=
  if b &&& all_bits = b then some ⟨b⟩ else none

def contains (s o : DmFields) : Bool :=
  s.bits &&& o.bits == o.bits

end DmFields

/-- `DisplayFlags` (src/lib.rs:441-447): only `INTERLACED` is declared. -/
structure DisplayFlags where
  bits : Nat
deriving DecidableEq

namespace DisplayFlags

def INTERLACED : DisplayFlags := ⟨DM_INTERLACED⟩

def all_bits : Nat := DM_INTERLACED

/-- `DisplayFlags::from_bits`. -/
def from_bits (b : Nat) : Option DisplayFlags :=
  if b &&& all_bits = b then some ⟨b⟩ else none

end DisplayFlags

/-! ## Native records -/

/-- `POINTL`: a pair of `LONG`s. The library's `Point` (src/lib.rs:396-409)
is a field-for-field copy via `From<POINTL>`, so one type models both. -/
structure Point where
  x : Int
  y : Int
deriving DecidableEq

/-- The text and flag fields of `DISPLAY_DEVICEW` that the library reads.
Text fields are fixed-width UTF-16 buffers modelled as code-unit lists. -/
structure DISPLAY_DEVICEW where
  DeviceName : List Nat
  DeviceString : List Nat
  StateFlags : Nat
  DeviceID : List Nat
  DeviceKey : List Nat
deriving DecidableEq

/-- The anonymous display sub-structure `s2` of the `DEVMODEW` union `u1`
(position, orientation, fixed output); the code only ever reads/writes the
`s2` interpretation. -/
structure DEVMODEW_s2 where
  dmPosition : Point
  dmDisplayOrientation : Nat
  dmDisplayFixedOutput : Nat
deriving DecidableEq

/-- The fields of `DEVMODEW` that the library touches. The union `u1` is
represented by its `s2` interpretation and the union `u2` by its
`dmDisplayFlags` interpretation, which are the only accesses in the code. -/
structure DEVMODEW where
  dmDeviceName : List Nat
  dmSpecVersion : Nat
  dmDriverVersion : Nat
  dmSize : Nat
  dmFields : Nat
  u1_s2 : DEVMODEW_s2
  dmBitsPerPel : Nat
  dmPelsWidth : Nat
  dmPelsHeight : Nat
  u2_dmDisplayFlags : Nat
  dmDisplayFrequency : Nat
deriving DecidableEq

/-- `mem::zeroed::<DEVMODEW>()`. -/
def DEVMODEW.zeroed : DEVMODEW :=
  { dmDeviceName := List.replicate 32 0
    dmSpecVersion := 0
    dmDriverVersion := 0
    dmSize := 0
    dmFields := 0
    u1_s2 := { dmPosition := ⟨0, 0⟩, dmDisplayOrientation := 0, dmDisplayFixedOutput := 0 }
    dmBitsPerPel := 0
    dmPelsWidth := 0
    dmPelsHeight := 0
    u2_dmDisplayFlags := 0
    dmDisplayFrequency := 0 }

/-- `mem::size_of::<DEVMODEW>()` on the target platform. -/
def sizeof_DEVMODEW : Nat := 220

/-! ## Orientation -/

/-- `DisplayOrientation` (src/lib.rs:411-417). -/
inductive DisplayOrientation where
  | Default
  | Rotate90
  | Rotate180
  | Rotate270
deriving DecidableEq

namespace DisplayOrientation

/-- `DisplayOrientation::from_raw` (src/lib.rs:421-429): the four `DMDO_*`
constants decode to their variant, anything else to `None`. -/
def from_raw (raw : Nat) : Option DisplayOrientation :=
  if raw = DMDO_DEFAULT then some .Default
  else if raw = DMDO_90 then some .Rotate90
  else if raw = DMDO_180 then some .Rotate180
  else if raw = DMDO_270 then some .Rotate270
  else none

/-- `DisplayOrientation::as_raw` (src/lib.rs:431-438). -/
def as_raw : DisplayOrientation → Nat
  | .Default => DMDO_DEFAULT
  | .Rotate90 => DMDO_90
  | .Rotate180 => DMDO_180
  | .Rotate270 => DMDO_270

end DisplayOrientation

/-! ## Settings-change outcome -/

/-- `SetDisplaySettingsError` (src/lib.rs:450-459): the seven named
rejection reasons of `ChangeDisplaySettingsW`. -/
inductive SetDisplaySettingsError where
  | BadDualView
  | BadFlags
  | BadMode
  | BadParam
  | Failed
  | NotUpdated
  | Restart
deriving DecidableEq

/-- `SetDisplaySettingsError::from_raw` (src/lib.rs:461-474): each of the
seven documented `DISP_CHANGE_*` rejection codes maps to its variant; any
other code hits the `panic!` arm, modelled as `none`. -/
def SetDisplaySettingsError.from_raw (raw : Int) : Option SetDisplaySettingsError :=
  if raw = DISP_CHANGE_BADDUALVIEW then some .BadDualView
  else if raw = DISP_CHANGE_BADFLAGS then some .BadFlags
  else if raw = DISP_CHANGE_BADMODE then some .BadMode
  else if raw = DISP_CHANGE_BADPARAM then some .BadParam
  else if raw = DISP_CHANGE_FAILED then some .Failed
  else if raw = DISP_CHANGE_NOTUPDATED then some .NotUpdated
  else if raw = DISP_CHANGE_RESTART then some .Restart
  else none

/-! ## Adapter decoding and enumeration

`EnumDisplayDevicesW` is modelled as an oracle `Nat → Nat × DISPLAY_DEVICEW`
from the queried index to the raw `BOOL` return value together with the
record the OS wrote into the out-parameter. -/

/-- The `match` on the raw `BOOL` return of `EnumDisplayDevicesW`
(src/lib.rs:78-84): `0` and `1` are the two documented outcomes; any other
value hits the `panic!` arm, modelled as `none`. -/
def parse_os_bool : Nat → Option Bool
  | 0 => some false
  | 1 => some true
  | _ => none

/-- `DisplayAdapter` (src/lib.rs:64-71): decoded identity/state snapshot
plus the retained raw record. Decoded text is a list of scalar values. -/
structure DisplayAdapter where
  name : List Nat
  string : List Nat
  state : DisplayState
  id : List Nat
  key : List Nat
  raw : DISPLAY_DEVICEW
deriving DecidableEq

/-- The field-decoding portion of `DisplayAdapter::nth` (src/lib.rs:89-106):
each text field is decoded with `String::from_utf16(..).unwrap()` followed by
`retain(|c| c != '\u{0}')`, and the state flags with
`DisplayState::from_bits(..).unwrap()`; each `unwrap` panic is `none`. -/
def decode_display_adapter (d : DISPLAY_DEVICEW) : Option DisplayAdapter :=
  (string_from_utf16_and_strip_null d.DeviceName).bind fun name =>
  (string_from_utf16_and_strip_null d.DeviceString).bind fun string =>
  (DisplayState.from_bits d.StateFlags).bind fun state =>
  (string_from_utf16_and_strip_null d.DeviceID).bind fun id =>
  (string_from_utf16_and_strip_null d.DeviceKey).map fun key =>
  { name, string, state, id, key, raw := d }

/-- `DisplayAdapter::nth` (src/lib.rs:74-107) against the oracle `os`.
Outer `none` is a panic (invalid `BOOL` or a decoding `unwrap`);
`some none` is the OS reporting index `n` as not present;
`some (some a)` is a decoded adapter. -/
def DisplayAdapter.nth (os : Nat → Nat × DISPLAY_DEVICEW) (n : Nat) :
    Option (Option DisplayAdapter) :=
  match parse_os_bool (os n).1 with
  | none => none
  | some false => some none
  | some true => (decode_display_adapter (os n).2).map some

/-- The `for i in 0..` loop of `DisplayAdapters::new` (src/lib.rs:34-40),
with explicit fuel standing in for the unbounded loop: collects adapters
from index `i` upward until the OS reports one as not present. `none` is
either a panic inside `DisplayAdapter::nth` or exhausted fuel. -/
def enum_adapters_from (os : Nat → Nat × DISPLAY_DEVICEW) :
    Nat → Nat → Option (List DisplayAdapter)
  | 0, _ => none
  | fuel + 1, i =>
    match DisplayAdapter.nth os i with
    | none => none
    | some none => some []
    | some (some a) => (enum_adapters_from os fuel (i + 1)).map (fun l => a :: l)

/-- `DisplayAdapters::new` (src/lib.rs:31-47): run the enumeration loop from
index 0, then return `None` when the accumulated list is empty, otherwise
the list. Outer `none` is a panic or exhausted fuel. -/
def DisplayAdapters.new (os : Nat → Nat × DISPLAY_DEVICEW) (fuel : Nat) :
    Option (Option (List DisplayAdapter)) :=
  (enum_adapters_from os fuel 0).map (fun adapters =>
    if adapters.isEmpty then none else some adapters)

/-! ## Device-mode query and decoding

`EnumDisplaySettingsW` is modelled as an oracle from the device-name scope
and the caller-prepared buffer to the raw `BOOL` return value together with
the buffer contents after the call. -/

/-- `DisplayDeviceInfo` (src/lib.rs:264-276): decoded device-mode snapshot.
Every attribute except `name` and `driver_version` is optional. -/
structure DisplayDeviceInfo where
  name : List Nat
  driver_version : Nat
  position : Option Point
  orientation : Option DisplayOrientation
  bits_per_pel : Option Nat
  pels_width : Option Nat
  pels_height : Option Nat
  flags : Option DisplayFlags
  frequency : Option Nat
deriving DecidableEq

/-- `DisplayDeviceInfo::get_raw` (src/lib.rs:345-358): zero a `DEVMODEW`,
set its `dmSize`, call `EnumDisplaySettingsW` scoped by the adapter's raw
device name, and return the buffer. The OS call's own `BOOL` return value
(the first component of the oracle's answer) is discarded. -/
def DisplayDeviceInfo.get_raw (adapter : DisplayAdapter)
    (os : List Nat → DEVMODEW → Nat × DEVMODEW) : DEVMODEW :=
  (os adapter.raw.DeviceName { DEVMODEW.zeroed with dmSize := sizeof_DEVMODEW }).2

/-- The decoding body of `DisplayDeviceInfo::new` (src/lib.rs:279-343)
applied to a fetched `DEVMODEW`: decode the name buffer, read the driver
version, `unwrap` the field-presence mask, and decode each attribute only if
its presence bit is set. `none` is a panic (name `unwrap` or mask `unwrap`). -/
def decode_device_mode (devmode : DEVMODEW) : Option DisplayDeviceInfo :=
  (string_from_utf16_and_strip_null devmode.dmDeviceName).bind fun name =>
  (DmFields.from_bits devmode.dmFields).map fun fields =>
  let struct_2 := devmode.u1_s2
  let position := if fields.contains DmFields.POSITION
    then some struct_2.dmPosition else none
  let orientation := if fields.contains DmFields.DISPLAYORIENTATION
    then DisplayOrientation.from_raw struct_2.dmDisplayOrientation else none
  let bits_per_pel := if fields.contains DmFields.BITSPERPEL
    then some devmode.dmBitsPerPel else none
  let pels_width := if fields.contains DmFields.PELSWIDTH
    then some devmode.dmPelsWidth else none
  let pels_height := if fields.contains DmFields.PELSHEIGHT
    then some devmode.dmPelsHeight else none
  let flags := if fields.contains DmFields.DISPLAYFLAGS
    then DisplayFlags.from_bits devmode.u2_dmDisplayFlags else none
  let frequency := if fields.contains DmFields.DISPLAYFREQUENCY
    then some devmode.dmDisplayFrequency else none
  { name, driver_version := devmode.dmDriverVersion,
    position, orientation, bits_per_pel, pels_width, pels_height, flags,
    frequency }

/-- `DisplayDeviceInfo::new` (src/lib.rs:279-343): fetch the raw record via
`get_raw` (whose OS-level success flag is never checked) and decode it. -/
def DisplayDeviceInfo.new (adapter : DisplayAdapter)
    (os : List Nat → DEVMODEW → Nat × DEVMODEW) : Option DisplayDeviceInfo :=
  decode_device_mode (DisplayDeviceInfo.get_raw adapter os)

/-! ## Orientation change -/

/-- The record `DisplayAdapter::set_orientation` (src/lib.rs:121-123)
submits: the fetched `DEVMODEW` with `dmFields` overwritten to exactly the
`DISPLAYORIENTATION` bit and the orientation slot of the `s2` union member
set to the requested value. -/
def submitted_devmode (adapter : DisplayAdapter)
    (orientation : DisplayOrientation)
    (osEnum : List Nat → DEVMODEW → Nat × DEVMODEW) : DEVMODEW :=
  let devmode := DisplayDeviceInfo.get_raw adapter osEnum
  { devmode with
    dmFields := DmFields.DISPLAYORIENTATION.bits
    u1_s2 := { devmode.u1_s2 with dmDisplayOrientation := orientation.as_raw } }

/-- The `match` on the `ChangeDisplaySettingsW` return code
(src/lib.rs:128-131): the success code yields `Ok(())`, every other code is
fed to `SetDisplaySettingsError::from_raw` (whose unmapped arm panics). -/
def settings_change_result (ret : Int) :
    Option (Except SetDisplaySettingsError Unit) :=
  if ret = DISP_CHANGE_SUCCESSFUL then some (.ok ())
  else (SetDisplaySettingsError.from_raw ret).map .error

/-- `DisplayAdapter::set_orientation` (src/lib.rs:117-132). The adapter is
threaded through explicitly (the Rust method takes `&self`) so the frame
property is expressible; `osChange` models `ChangeDisplaySettingsW` applied
to the submitted record and the `dwFlags` argument, which the code passes
as `0`. -/
def DisplayAdapter.set_orientation (adapter : DisplayAdapter)
    (orientation : DisplayOrientation)
    (osEnum : List Nat → DEVMODEW → Nat × DEVMODEW)
    (osChange : DEVMODEW → Int → Int) :
    DisplayAdapter × Option (Except SetDisplaySettingsError Unit) :=
  let devmode := submitted_devmode adapter orientation osEnum
  let ret := osChange devmode 0
  (adapter, settings_change_result ret)

/-! ## Spec-side definition for the text-field claim

The spec's testable property reads: text fields "decode to the substring
before the first null, with all null characters removed". The following
definition transcribes those words (truncate at the first null, then decode
and strip), to be compared against the source's
`string_from_utf16_and_strip_null`, which decodes the whole buffer and only
strips nulls. -/

/-- Transcription of the spec sentence: keep only the prefix before the
first null code unit, decode it, and remove null characters. -/
def spec_decode_truncate_at_first_null (v : List Nat) : Option (List Nat) :=
  (utf16Decode (v.takeWhile (fun u => u ≠ 0))).map (List.filter (fun c => c ≠ 0))

/-! ## Concrete fixtures used by witnesses -/

/-- A minimal raw adapter record: null text buffers, zero state flags. -/
def test_device : DISPLAY_DEVICEW :=
  { DeviceName := [0], DeviceString := [0], StateFlags := 0,
    DeviceID := [0], DeviceKey := [0] }

/-- The adapter `test_device` decodes to. -/
def test_adapter : DisplayAdapter :=
  { name := [], string := [], state := ⟨0⟩, id := [], key := [],
    raw := test_device }

/-! ## Helper lemmas -/

/-- On a buffer free of surrogate code units, UTF-16 decoding is the
identity on the code-unit list. -/
theorem utf16Decode_of_no_surrogates (v : List Nat)
    (h : ∀ u ∈ v, u < 0xD800 ∨ 0xDFFF < u) : utf16Decode v = some v := by
  induction v with
  | nil => rfl
  | cons u rest ih =>
    have hu : u < 0xD800 ∨ 0xDFFF < u := h u (List.mem_cons_self u rest)
    have hrest : ∀ x ∈ rest, x < 0xD800 ∨ 0xDFFF < x :=
      fun x hx => h x (List.mem_cons_of_mem u hx)
    rw [utf16Decode.eq_def]
    dsimp only
    rw [if_pos hu, ih hrest]
    rfl

/-! ## Claim theorems -/

/-- C1: the claim says a text buffer with an embedded null followed by
leftover non-null content decodes to the substring before the first null.
It does not: `string_from_utf16_and_strip_null` decodes the whole buffer and
strips nulls, so the leftover content after the embedded null is kept. At
buffer `[65, 0, 66, 0]` the source yields "AB" while the truncating reading
of the spec yields "A". -/
theorem C1_counterexample :
    string_from_utf16_and_strip_null [65, 0, 66, 0] = some [65, 66] ∧
    spec_decode_truncate_at_first_null [65, 0, 66, 0] = some [65] ∧
    string_from_utf16_and_strip_null [65, 0, 66, 0] ≠
      spec_decode_truncate_at_first_null [65, 0, 66, 0] := by
  refine ⟨rfl, rfl, ?_⟩
  decide

/-- C1 (amended): for every fixed-width UTF-16 text field buffer (free of
surrogate code units), decoding yields all non-null code units of the whole
buffer in order — all null characters are removed, but content after an
embedded null is retained, not truncated. -/
theorem C1_strip_all_nulls_no_truncation (v : List Nat)
    (h : ∀ u ∈ v, u < 0xD800 ∨ 0xDFFF < u) :
    string_from_utf16_and_strip_null v = some (v.filter (fun c => c ≠ 0)) := by
  unfold string_from_utf16_and_strip_null
  rw [utf16Decode_of_no_surrogates v h]
  rfl

/-- Witness for C1 at the buffer `[72, 0, 105, 0]`. -/
theorem C1_witness :
    string_from_utf16_and_strip_null [72, 0, 105, 0] = some [72, 105] :=
  C1_strip_all_nulls_no_truncation [72, 0, 105, 0] (by decide)

/-- C4: encoding each of the four orientation values to its numeric OS
constant and decoding it back yields the same value. -/
theorem C4_orientation_roundtrip :
    ∀ o : DisplayOrientation, DisplayOrientation.from_raw o.as_raw = some o := by
  intro o
  cases o <;> rfl

/-- C5: a device-enumeration `BOOL` other than the two documented outcomes
panics (`parse_os_bool` is `none`), and a settings-change result code
outside the eight documented codes panics (`settings_change_result` is
`none`). -/
theorem C5_unexpected_os_codes_fatal (n : Nat) (r : Int)
    (os : Nat → Nat × DISPLAY_DEVICEW) (k : Nat)
    (hosk : (os k).1 = n)
    (hn0 : n ≠ 0) (hn1 : n ≠ 1)
    (hr0 : r ≠ 0) (hr1 : r ≠ 1) (hr2 : r ≠ -1) (hr3 : r ≠ -2)
    (hr4 : r ≠ -3) (hr5 : r ≠ -4) (hr6 : r ≠ -5) (hr7 : r ≠ -6) :
    parse_os_bool n = none ∧ DisplayAdapter.nth os k = none ∧
    settings_change_result r = none := by
  have hb : parse_os_bool n = none := by
    match n, hn0, hn1 with
    | 0, h, _ => exact absurd rfl h
    | 1, _, h => exact absurd rfl h
    | m + 2, _, _ => rfl
  refine ⟨hb, ?_, ?_⟩
  · unfold DisplayAdapter.nth
    rw [hosk, hb]
  · simp [settings_change_result, SetDisplaySettingsError.from_raw,
      DISP_CHANGE_SUCCESSFUL, DISP_CHANGE_RESTART, DISP_CHANGE_FAILED,
      DISP_CHANGE_BADMODE, DISP_CHANGE_NOTUPDATED, DISP_CHANGE_BADFLAGS,
      DISP_CHANGE_BADPARAM, DISP_CHANGE_BADDUALVIEW,
      hr0, hr1, hr2, hr3, hr4, hr5, hr6, hr7]

/-- Witness for C5 at `n = 5`, `r = 7`. -/
theorem C5_witness :
    parse_os_bool 5 = none ∧
    DisplayAdapter.nth (fun _ => (5, test_device)) 0 = none ∧
    settings_change_result 7 = none :=
  C5_unexpected_os_codes_fatal 5 7 (fun _ => (5, test_device)) 0 rfl
    (by decide) (by decide) (by decide) (by decide) (by decide) (by decide)
    (by decide) (by decide) (by decide) (by decide)

/-- C6: the orientation-change operation maps the OS return code through
`settings_change_result`, under which the success code yields `Ok` with no
payload and each of the seven rejection codes yields its own named
variant. -/
theorem C6_result_codes_map_to_named_variants
    (adapter : DisplayAdapter) (o : DisplayOrientation)
    (osEnum : List Nat → DEVMODEW → Nat × DEVMODEW)
    (osChange : DEVMODEW → Int → Int) :
    (adapter.set_orientation o osEnum osChange).2 =
      settings_change_result (osChange (submitted_devmode adapter o osEnum) 0) ∧
    settings_change_result DISP_CHANGE_SUCCESSFUL = some (.ok ()) ∧
    settings_change_result DISP_CHANGE_BADMODE = some (.error .BadMode) ∧
    settings_change_result DISP_CHANGE_BADDUALVIEW = some (.error .BadDualView) ∧
    settings_change_result DISP_CHANGE_BADFLAGS = some (.error .BadFlags) ∧
    settings_change_result DISP_CHANGE_BADPARAM = some (.error .BadParam) ∧
    settings_change_result DISP_CHANGE_FAILED = some (.error .Failed) ∧
    settings_change_result DISP_CHANGE_NOTUPDATED = some (.error .NotUpdated) ∧
    settings_change_result DISP_CHANGE_RESTART = some (.error .Restart) :=
  ⟨rfl, rfl, rfl, rfl, rfl, rfl, rfl, rfl, rfl⟩

/-- C9: the orientation-change operation leaves the in-memory adapter
unchanged, and the record it submits declares exactly the
display-orientation field valid and carries the requested value. -/
theorem C9_set_orientation_frame
    (adapter : DisplayAdapter) (o : DisplayOrientation)
    (osEnum : List Nat → DEVMODEW → Nat × DEVMODEW)
    (osChange : DEVMODEW → Int → Int) :
    (adapter.set_orientation o osEnum osChange).1 = adapter ∧
    (submitted_devmode adapter o osEnum).dmFields = DM_DISPLAYORIENTATION ∧
    (submitted_devmode adapter o osEnum).u1_s2.dmDisplayOrientation =
      o.as_raw :=
  ⟨rfl, rfl, rfl⟩

/-- C2: a device-mode record whose presence mask marks exactly position and
frequency yields a snapshot with position and frequency present, every other
optional attribute absent regardless of the stored values, and name and
driver version present. -/
theorem C2_position_frequency_only (dm : DEVMODEW) (ns : List Nat)
    (hf : dm.dmFields = DM_POSITION ||| DM_DISPLAYFREQUENCY)
    (hn : utf16Decode dm.dmDeviceName = some ns) :
    decode_device_mode dm = some
      { name := ns.filter (fun c => c ≠ 0)
        driver_version := dm.dmDriverVersion
        position := some dm.u1_s2.dmPosition
        orientation := none
        bits_per_pel := none
        pels_width := none
        pels_height := none
        flags := none
        frequency := some dm.dmDisplayFrequency } := by
  unfold decode_device_mode string_from_utf16_and_strip_null
  rw [hn, hf]
  rfl

/-- Witness for C2: a record with mask `DM_POSITION ||| DM_DISPLAYFREQUENCY`
and garbage in the unset orientation/resolution slots. -/
theorem C2_witness :
    decode_device_mode
      { dmDeviceName := [68, 0], dmSpecVersion := 0x401, dmDriverVersion := 9,
        dmSize := 220, dmFields := DM_POSITION ||| DM_DISPLAYFREQUENCY,
        u1_s2 := { dmPosition := ⟨10, 20⟩, dmDisplayOrientation := 77,
                   dmDisplayFixedOutput := 3 },
        dmBitsPerPel := 32, dmPelsWidth := 1920, dmPelsHeight := 1080,
        u2_dmDisplayFlags := 5, dmDisplayFrequency := 60 } = some
      { name := [68], driver_version := 9, position := some ⟨10, 20⟩,
        orientation := none, bits_per_pel := none, pels_width := none,
        pels_height := none, flags := none, frequency := some 60 } :=
  C2_position_frequency_only _ [68, 0] rfl (by decide)

/-- C7: the device-mode query returns whatever buffer the OS call produced,
discarding the call's own success/failure return value, and decoding
proceeds on that buffer unconditionally — there is no error outcome tied to
the OS status. -/
theorem C7_query_status_discarded
    (adapter : DisplayAdapter) (os : List Nat → DEVMODEW → Nat × DEVMODEW)
    (r : Nat) (d : DEVMODEW)
    (h : os adapter.raw.DeviceName
      { DEVMODEW.zeroed with dmSize := sizeof_DEVMODEW } = (r, d)) :
    DisplayDeviceInfo.get_raw adapter os = d ∧
    DisplayDeviceInfo.new adapter os = decode_device_mode d := by
  unfold DisplayDeviceInfo.new DisplayDeviceInfo.get_raw
  rw [h]
  exact ⟨rfl, rfl⟩

/-- Witness for C7 with an oracle whose status component is `0` (the query
failed), showing the zeroed buffer is still decoded. -/
theorem C7_witness :
    DisplayDeviceInfo.get_raw test_adapter (fun _ _ => (0, DEVMODEW.zeroed)) =
      DEVMODEW.zeroed ∧
    DisplayDeviceInfo.new test_adapter (fun _ _ => (0, DEVMODEW.zeroed)) =
      decode_device_mode DEVMODEW.zeroed :=
  C7_query_status_discarded test_adapter (fun _ _ => (0, DEVMODEW.zeroed)) 0
    DEVMODEW.zeroed rfl

/-- C8: a numeric orientation value outside the four documented constants
decodes to `none`, and a device-mode record carrying such a value (with the
orientation presence bit set) still decodes to a full snapshot whose
orientation is absent. -/
theorem C8_unknown_orientation_absent
    (raw : Nat) (h0 : raw ≠ 0) (h1 : raw ≠ 1) (h2 : raw ≠ 2) (h3 : raw ≠ 3)
    (dm : DEVMODEW) (ns : List Nat)
    (hf : dm.dmFields = DM_DISPLAYORIENTATION)
    (ho : dm.u1_s2.dmDisplayOrientation = raw)
    (hn : utf16Decode dm.dmDeviceName = some ns) :
    DisplayOrientation.from_raw raw = none ∧
    decode_device_mode dm = some
      { name := ns.filter (fun c => c ≠ 0)
        driver_version := dm.dmDriverVersion
        position := none
        orientation := none
        bits_per_pel := none
        pels_width := none
        pels_height := none
        flags := none
        frequency := none } := by
  have hfr : DisplayOrientation.from_raw raw = none := by
    simp [DisplayOrientation.from_raw, DMDO_DEFAULT, DMDO_90, DMDO_180,
      DMDO_270, h0, h1, h2, h3]
  refine ⟨hfr, ?_⟩
  unfold decode_device_mode string_from_utf16_and_strip_null
  rw [hn, hf]
  have hfields : DmFields.from_bits DM_DISPLAYORIENTATION =
      some DmFields.DISPLAYORIENTATION := rfl
  rw [hfields]
  simp only [Option.map_some, Option.bind_some]
  simp only [ho, hfr]
  rfl

/-- Witness for C8 at orientation value `7`. -/
theorem C8_witness :
    DisplayOrientation.from_raw 7 = none ∧
    decode_device_mode
      { dmDeviceName := [88, 0], dmSpecVersion := 0, dmDriverVersion := 4,
        dmSize := 220, dmFields := DM_DISPLAYORIENTATION,
        u1_s2 := { dmPosition := ⟨1, 2⟩, dmDisplayOrientation := 7,
                   dmDisplayFixedOutput := 0 },
        dmBitsPerPel := 0, dmPelsWidth := 0, dmPelsHeight := 0,
        u2_dmDisplayFlags := 0, dmDisplayFrequency := 0 } = some
      { name := [88], driver_version := 4, position := none,
        orientation := none, bits_per_pel := none, pels_width := none,
        pels_height := none, flags := none, frequency := none } :=
  C8_unknown_orientation_absent 7 (by decide) (by decide) (by decide)
    (by decide) _ [88, 0] rfl rfl (by decide)

/-- C10: a state-flag word with any bit outside the six declared constants,
or a field-presence mask with any bit outside the thirty declared constants,
makes the corresponding `from_bits` return `none`, so the decoding operation
panics (the code `unwrap`s both) rather than degrading gracefully. -/
theorem C10_unknown_flag_bits_fatal (sb fb : Nat)
    (hsb : sb &&& DisplayState.all_bits ≠ sb)
    (hfb : fb &&& DmFields.all_bits ≠ fb)
    (d : DISPLAY_DEVICEW) (dm : DEVMODEW)
    (hd : d.StateFlags = sb) (hdm : dm.dmFields = fb) :
    DisplayState.from_bits sb = none ∧
    decode_display_adapter d = none ∧
    DmFields.from_bits fb = none ∧
    decode_device_mode dm = none := by
  have hs : DisplayState.from_bits sb = none := by
    simp [DisplayState.from_bits, hsb]
  have hf : DmFields.from_bits fb = none := by
    simp [DmFields.from_bits, hfb]
  refine ⟨hs, ?_, hf, ?_⟩
  · unfold decode_display_adapter
    rw [hd, hs]
    cases string_from_utf16_and_strip_null d.DeviceName <;>
      cases string_from_utf16_and_strip_null d.DeviceString <;> rfl
  · unfold decode_device_mode
    rw [hdm, hf]
    cases string_from_utf16_and_strip_null dm.dmDeviceName <;> rfl

/-- Witness for C10 with state flags `0x2` (bit 1 is undeclared) and
field mask `0x40000000` (bit 30 is undeclared). -/
theorem C10_witness :
    DisplayState.from_bits 0x2 = none ∧
    decode_display_adapter
      { DeviceName := [0], DeviceString := [0], StateFlags := 0x2,
        DeviceID := [0], DeviceKey := [0] } = none ∧
    DmFields.from_bits 0x40000000 = none ∧
    decode_device_mode { DEVMODEW.zeroed with dmFields := 0x40000000 } = none :=
  C10_unknown_flag_bits_fatal 0x2 0x40000000 (by decide) (by decide) _ _
    rfl rfl

/-- The enumeration loop collects exactly the adapters the oracle yields
from `start` up to the first not-found index `N`, given enough fuel. -/
theorem enum_adapters_from_collects
    (os : Nat → Nat × DISPLAY_DEVICEW) (N : Nat) (f : Nat → DisplayAdapter)
    (hok : ∀ i, i < N → (os i).1 = 1 ∧ decode_display_adapter (os i).2 = some (f i))
    (hstop : (os N).1 = 0) :
    ∀ fuel start, start ≤ N → N - start < fuel →
      enum_adapters_from os fuel start =
        some ((List.range (N - start)).map (fun k => f (start + k))) := by
  intro fuel
  induction fuel with
  | zero => intro start _ hlt; omega
  | succ fuel ih =>
    intro start hle hlt
    rcases Nat.lt_or_ge start N with hstart | hstart
    · have ⟨hos, hdec⟩ := hok start hstart
      have hnth : DisplayAdapter.nth os start = some (some (f start)) := by
        unfold DisplayAdapter.nth
        rw [hos, hdec]
        rfl
      rw [enum_adapters_from, hnth]
      rw [ih (start + 1) (by omega) (by omega)]
      have hm : N - start = (N - (start + 1)) + 1 := by omega
      rw [hm, List.range_succ_eq_map, List.map_cons, List.map_map]
      have harg : ((fun k => f (start + k)) ∘ Nat.succ) =
          fun k => f (start + 1 + k) := by
        funext k
        simp only [Function.comp_apply]
        congr 1
        omega
      rw [harg, Nat.add_zero]
      rfl
    · have hsN : start = N := by omega
      subst hsN
      have hnth : DisplayAdapter.nth os start = some none := by
        unfold DisplayAdapter.nth
        rw [hstop]
        rfl
      rw [enum_adapters_from, hnth, Nat.sub_self]
      rfl

/-- C3: against an OS backend that yields adapters at indices `0..N-1` and
reports not-found at index `N`, the enumerator returns exactly the `N`
decoded adapters in the order supplied, and returns `None` instead of an
empty list when `N = 0`. -/
theorem C3_enumeration_collects_all
    (os : Nat → Nat × DISPLAY_DEVICEW) (N : Nat) (f : Nat → DisplayAdapter)
    (hok : ∀ i, i < N → (os i).1 = 1 ∧ decode_display_adapter (os i).2 = some (f i))
    (hstop : (os N).1 = 0) :
    DisplayAdapters.new os (N + 1) =
      some (if N = 0 then none else some ((List.range N).map f)) := by
  unfold DisplayAdapters.new
  rw [enum_adapters_from_collects os N f hok hstop (N + 1) 0 (by omega)
    (by omega)]
  simp only [Nat.sub_zero, Nat.zero_add, Option.map_some]
  cases N with
  | zero => rfl
  | succ n =>
    rw [List.range_succ_eq_map]
    rfl

/-- Witness for C3 with one adapter followed by a not-found response. -/
theorem C3_witness :
    DisplayAdapters.new
      (fun i => if i = 0 then (1, test_device) else (0, test_device)) 2 =
      some (if 1 = 0 then none
            else some ((List.range 1).map (fun _ => test_adapter))) :=
  C3_enumeration_collects_all
    (fun i => if i = 0 then (1, test_device) else (0, test_device)) 1
    (fun _ => test_adapter)
    (by
      intro i hi
      have hiz : i = 0 := by omega
      subst hiz
      exact ⟨rfl, by decide⟩)
    rfl

end Monman
